import Mathlib

/-!
Verification of the `create-payment` edge function
(`supabase/functions/create-payment/index.ts`).

The handler is embedded as a pure function `runHandler` over an
environment `Env` that records the outcome of every external effect
(environment variables, the identity check, the package query, the
profile lookup, the ledger insert, the gateway call).  The handler
returns the HTTP response, the ordered trace of ledger/gateway events,
and the final state of the `transactions` table.
-/

namespace CreatePayment

/-- Verified principal, as returned by `supabaseAuth.auth.getUser`. -/
structure User where
  id : String
  email : String
deriving DecidableEq, Repr

/-- A row of the `premium_packages` table (the columns the query touches).
`created_at` is abstracted as a `Nat` ordering key. -/
structure Package where
  price : Int
  duration_months : Int
  name : String
  is_active : Bool
  is_popular : Bool
  created_at : Nat
deriving DecidableEq, Repr

/-- A row of the `transactions` table as inserted by the handler. -/
structure TxRecord where
  user_id : String
  paket : String
  amount : Int
  midtrans_order_id : String
  status : String
deriving DecidableEq, Repr

/-- The `snapTransaction` request body sent to the Midtrans gateway
(the fields the source populates; `item_details` has one element). -/
structure SnapTransaction where
  order_id : String
  gross_amount : Int
  first_name : String
  email : String
  item_id : String
  item_price : Int
  item_quantity : Nat
  item_name : String
deriving DecidableEq, Repr

/-- Observable external effects of a run, in program order. -/
inductive Event where
  | ledgerInsert (txr : TxRecord) (ok : Bool)
  | gatewayCall (snap : SnapTransaction)
deriving DecidableEq, Repr

/-- Outcome of the `fetch` to the Midtrans Snap endpoint:
a 2xx response carrying a token, a non-2xx response with its status and
raw body text, or a transport-level error (thrown by `fetch`). -/
inductive GatewayResult where
  | success (token : String)
  | failure (status : Nat) (body : String)
  | netError (msg : String)
deriving DecidableEq, Repr

/-- JSON body of the HTTP response returned to the client. -/
inductive RespBody where
  | empty
  | success (token : String) (order_id : String)
  | failure (error : String)
deriving DecidableEq, Repr

structure HttpResponse where
  status : Nat
  body : RespBody
deriving DecidableEq, Repr

structure RunResult where
  response : HttpResponse
  trace : List Event
  transactions : List TxRecord
deriving DecidableEq, Repr

/-- Environment of one request: request data plus the outcome of every
external collaborator the handler consults, in the order consulted. -/
structure Env where
  method : String
  midtransServerKey : Option String
  supabaseUrl : Option String
  supabaseServiceKey : Option String
  authHeader : Option String
  authUser : Option User
  bodyPaket : Except String (Option String)
  packages : List Package
  packageQueryError : Bool
  profileNama : Option String
  insertError : Bool
  gateway : GatewayResult
  nowMs : Nat
  transactions : List TxRecord
deriving Repr

/-- JavaScript truthiness for an optional string: `undefined`/`null` and
`""` are falsy (the source tests `!midtransServerKey`, `!authHeader`, …). -/
def truthy : Option String → Option String
  | none => none
  | some s => if s = "" then none else some s

/-- The query filter: `.eq('is_active', true).eq('duration_months', dur)`. -/
def matchesPlan (dur : Int) (p : Package) : Bool :=
  p.is_active && (p.duration_months == dur)

/-- `a` sorts strictly before `b` under
`.order('is_popular', desc).order('created_at', desc)`. -/
def better (a b : Package) : Bool :=
  (a.is_popular && !b.is_popular) ||
    ((a.is_popular == b.is_popular) && decide (b.created_at < a.created_at))

def pickBetter (a b : Package) : Package :=
  if better b a then b else a

/-- `.limit(1).maybeSingle()` over the sorted matches: a maximal row
under the sort order, or `none` when no row matches. -/
def selectBest : List Package → Option Package
  | [] => none
  | p :: ps => some (ps.foldl pickBetter p)

/-- Result of the `premium_packages` query: `none` stands for both a
query error and an empty result (the source collapses them with
`if (packageError || !packageData)`). -/
def queryPackage (packages : List Package) (queryError : Bool) (dur : Int) :
    Option Package :=
  if queryError then none else selectBest (packages.filter (matchesPlan dur))

/-- `paket === 'monthly' ? 1 : 12`. -/
def planDuration (paket : String) : Int :=
  if paket = "monthly" then 1 else 12

/-- Fallback amount: `paket === 'monthly' ? 40000 : 400000`. -/
def fallbackAmount (paket : String) : Int :=
  if paket = "monthly" then 40000 else 400000

/-- Fallback name: `Premium Membership ${paket === 'monthly' ? '1 Bulan' : '1 Tahun'}`. -/
def fallbackName (paket : String) : String :=
  "Premium Membership " ++ (if paket = "monthly" then "1 Bulan" else "1 Tahun")

structure PriceQuote where
  amount : Int
  packageName : String
deriving DecidableEq, Repr

/-- The pricing block: use the queried package's `price`/`name`, or the
fixed fallback table when the query errors or returns no row. -/
def resolvePrice (packages : List Package) (queryError : Bool) (paket : String) :
    PriceQuote :=
  match queryPackage packages queryError (planDuration paket) with
  | none => ⟨fallbackAmount paket, fallbackName paket⟩
  | some p => ⟨p.price, p.name⟩

/-- `` `prem-${user.id.substring(0, 8)}-${Date.now().toString()}` ``. -/
def generateOrderId (userId : String) (nowMs : Nat) : String :=
  "prem-" ++ userId.take 8 ++ "-" ++ toString nowMs

/-- `profile?.nama || 'User'` (missing row/lookup error gives `undefined`,
and the empty string is falsy). -/
def customerFirstName : Option String → String
  | none => "User"
  | some n => if n = "" then "User" else n

/-- A 500 response with a JSON `{ error }` body, as built by the catch block. -/
def errResp (msg : String) (tr : List Event) (txs : List TxRecord) : RunResult :=
  ⟨⟨500, RespBody.failure msg⟩, tr, txs⟩

/-- The row passed to `.from('transactions').insert({...})`. -/
def mkTxRecord (env : Env) (user : User) (paket : String) : TxRecord :=
  ⟨user.id, paket, (resolvePrice env.packages env.packageQueryError paket).amount,
    generateOrderId user.id env.nowMs, "pending"⟩

/-- The `snapTransaction` body sent to the gateway. -/
def mkSnap (env : Env) (user : User) (paket : String) : SnapTransaction :=
  ⟨generateOrderId user.id env.nowMs,
    (resolvePrice env.packages env.packageQueryError paket).amount,
    customerFirstName env.profileNama, user.email,
    "premium-" ++ paket,
    (resolvePrice env.packages env.packageQueryError paket).amount, 1,
    (resolvePrice env.packages env.packageQueryError paket).packageName⟩

/-- The tail of the handler after a successful `transactions` insert:
build `snapTransaction`, call the gateway, and map its outcome to the
response.  On a non-2xx gateway status the thrown message is
`` `Midtrans API Error (${status}): ${errorText}` ``, surfaced by the
catch block; the inserted row is never removed. -/
def postInsertStage (env : Env) (user : User) (paket : String) : RunResult :=
  let txr := mkTxRecord env user paket
  let snap := mkSnap env user paket
  let tr := [Event.ledgerInsert txr true, Event.gatewayCall snap]
  let txs := env.transactions ++ [txr]
  match env.gateway with
  | GatewayResult.success token =>
      ⟨⟨200, RespBody.success token txr.midtrans_order_id⟩, tr, txs⟩
  | GatewayResult.failure status body =>
      errResp ("Midtrans API Error (" ++ toString status ++ "): " ++ body) tr txs
  | GatewayResult.netError msg => errResp msg tr txs

/-- The whole `serve` handler: CORS preflight, configuration checks,
authentication, body validation, pricing, order-id generation, profile
lookup, ledger insert, gateway call.  Every `throw` is modelled as the
500 `{ error: message }` response produced by the catch block. -/
def runHandler (env : Env) : RunResult :=
  if env.method = "OPTIONS" then ⟨⟨200, RespBody.empty⟩, [], env.transactions⟩ else
  match truthy env.midtransServerKey with
  | none => errResp "Midtrans server key not configured" [] env.transactions
  | some _ =>
  match truthy env.supabaseUrl, truthy env.supabaseServiceKey with
  | none, _ => errResp "Supabase configuration not found" [] env.transactions
  | some _, none => errResp "Supabase configuration not found" [] env.transactions
  | some _, some _ =>
  match truthy env.authHeader with
  | none => errResp "Authorization header required" [] env.transactions
  | some _ =>
  match env.authUser with
  | none => errResp "User not authenticated" [] env.transactions
  | some user =>
  match env.bodyPaket with
  | Except.error e => errResp e [] env.transactions
  | Except.ok pk =>
  match pk with
  | none => errResp "Invalid paket. Must be 'monthly' or 'yearly'" [] env.transactions
  | some paket =>
  if paket = "monthly" ∨ paket = "yearly" then
    if env.insertError then
      errResp "Failed to create transaction record"
        [Event.ledgerInsert (mkTxRecord env user paket) false] env.transactions
    else postInsertStage env user paket
  else errResp "Invalid paket. Must be 'monthly' or 'yearly'" [] env.transactions

/-! ### Order lemmas for the package sort -/

theorem better_trans {a b c : Package} (hab : better a b = true)
    (hbc : better b c = true) : better a c = true := by
  unfold better at *
  cases ha : a.is_popular <;> cases hb : b.is_popular <;> cases hc : c.is_popular <;>
    simp_all <;> omega

theorem better_negTrans {a b c : Package} (hab : better a b = false)
    (hbc : better b c = false) : better a c = false := by
  unfold better at *
  cases ha : a.is_popular <;> cases hb : b.is_popular <;> cases hc : c.is_popular <;>
    simp_all <;> omega

theorem better_asymm {a b : Package} (hab : better a b = true) :
    better b a = false := by
  unfold better at *
  cases ha : a.is_popular <;> cases hb : b.is_popular <;> simp_all <;> omega

theorem better_irrefl (a : Package) : better a a = false := by
  unfold better; simp

theorem pickBetter_cases (a b : Package) :
    pickBetter a b = a ∨ pickBetter a b = b := by
  unfold pickBetter; split <;> simp

theorem foldl_pickBetter_mem (l : List Package) (a : Package) :
    l.foldl pickBetter a ∈ a :: l := by
  induction l generalizing a with
  | nil => simp
  | cons p ps ih =>
    simp only [List.foldl_cons]
    rcases pickBetter_cases a p with h2 | h2 <;> rw [h2]
    · rcases (List.mem_cons).1 (ih a) with heq | hmem
      · rw [heq]; simp
      · simp [List.mem_cons, hmem]
    · rcases (List.mem_cons).1 (ih p) with heq | hmem
      · rw [heq]; simp
      · simp [List.mem_cons, hmem]

theorem foldl_pickBetter_best (l : List Package) (a : Package) :
    ∀ q ∈ a :: l, better q (l.foldl pickBetter a) = false := by
  induction l generalizing a with
  | nil =>
    intro q hq
    simp only [List.mem_cons, List.not_mem_nil, or_false] at hq
    rw [List.foldl_nil, hq]
    exact better_irrefl a
  | cons p ps ih =>
    intro q hq
    simp only [List.foldl_cons]
    have hstep := ih (pickBetter a p)
    by_cases hb : better p a = true
    · have hpa : pickBetter a p = p := by unfold pickBetter; simp [hb]
      rw [hpa] at hstep
      rcases (List.mem_cons).1 hq with heq | hq'
      · -- q = a: if q beat the result then p would beat the result too
        rw [hpa]
        by_contra hcon
        simp only [Bool.not_eq_false] at hcon
        rw [heq] at hcon
        have h2 := better_trans hb hcon
        have h3 := hstep p (List.mem_cons_self _ _)
        rw [h3] at h2
        exact Bool.false_ne_true h2
      · rcases (List.mem_cons).1 hq' with heq | hq''
        · rw [hpa, heq]; exact hstep p (List.mem_cons_self _ _)
        · rw [hpa]; exact hstep q (List.mem_cons_of_mem _ hq'')
    · simp only [Bool.not_eq_true] at hb
      have hpa : pickBetter a p = a := by unfold pickBetter; simp [hb]
      rw [hpa] at hstep
      rcases (List.mem_cons).1 hq with heq | hq'
      · rw [hpa, heq]; exact hstep a (List.mem_cons_self _ _)
      · rcases (List.mem_cons).1 hq' with heq | hq''
        · rw [hpa, heq]
          exact better_negTrans hb (hstep a (List.mem_cons_self _ _))
        · rw [hpa]; exact hstep q (List.mem_cons_of_mem _ hq'')

theorem selectBest_mem {l : List Package} {p : Package}
    (h : selectBest l = some p) : p ∈ l := by
  cases l with
  | nil => simp [selectBest] at h
  | cons a ps =>
    simp only [selectBest, Option.some.injEq] at h
    have := foldl_pickBetter_mem ps a
    rwa [h] at this

theorem selectBest_maximal {l : List Package} {p : Package}
    (h : selectBest l = some p) : ∀ q ∈ l, better q p = false := by
  cases l with
  | nil => simp [selectBest] at h
  | cons a ps =>
    simp only [selectBest, Option.some.injEq] at h
    intro q hq
    have := foldl_pickBetter_best ps a q hq
    rwa [h] at this

/-! ### Injectivity of the decimal printing used inside order-ids -/

def digitVal (c : Char) : Nat := c.toNat - 48

def listVal (l : List Char) : Nat := l.foldl (fun a c => 10 * a + digitVal c) 0

theorem digitVal_digitChar {n : Nat} (h : n < 10) :
    digitVal (Nat.digitChar n) = n := by
  interval_cases n <;> rfl

theorem toDigitsCore_shift (b : Nat) :
    ∀ (fuel n : Nat) (ds : List Char),
      Nat.toDigitsCore b fuel n ds = Nat.toDigitsCore b fuel n [] ++ ds := by
  intro fuel
  induction fuel with
  | zero => intro n ds; simp [Nat.toDigitsCore]
  | succ f ih =>
    intro n ds
    simp only [Nat.toDigitsCore]
    by_cases h : n / b = 0
    · simp [h]
    · simp only [h, if_false]
      rw [ih (n / b) (Nat.digitChar (n % b) :: ds), ih (n / b) [Nat.digitChar (n % b)]]
      simp

theorem listVal_append_singleton (l : List Char) (c : Char) :
    listVal (l ++ [c]) = 10 * listVal l + digitVal c := by
  simp [listVal, List.foldl_append]

theorem toDigitsCore_val :
    ∀ (fuel n : Nat), n < 10 ^ fuel →
      listVal (Nat.toDigitsCore 10 fuel n []) = n := by
  intro fuel
  induction fuel with
  | zero =>
    intro n h
    simp only [pow_zero, Nat.lt_one_iff] at h
    subst h
    rfl
  | succ f ih =>
    intro n h
    simp only [Nat.toDigitsCore]
    by_cases h0 : n / 10 = 0
    · simp only [h0, if_true]
      have hn : n < 10 := by omega
      have hm : n % 10 = n := Nat.mod_eq_of_lt hn
      simp [listVal, hm, digitVal_digitChar hn]
    · simp only [h0, if_false]
      rw [toDigitsCore_shift, listVal_append_singleton]
      have hdiv : n / 10 < 10 ^ f := by
        rw [Nat.div_lt_iff_lt_mul (by norm_num : (0:Nat) < 10)]
        calc n < 10 ^ (f + 1) := h
        _ = 10 ^ f * 10 := pow_succ 10 f
      rw [ih (n / 10) hdiv, digitVal_digitChar (Nat.mod_lt n (by norm_num))]
      omega

theorem listVal_toDigits (n : Nat) : listVal (Nat.toDigits 10 n) = n := by
  have h : n < 10 ^ (n + 1) := by
    calc n < 2 ^ n := Nat.lt_two_pow n
    _ ≤ 10 ^ n := Nat.pow_le_pow_left (by norm_num) n
    _ ≤ 10 ^ (n + 1) := Nat.pow_le_pow_right (by norm_num) (Nat.le_succ n)
  exact toDigitsCore_val (n + 1) n h

theorem nat_repr_data_inj {m n : Nat}
    (h : (Nat.repr m).data = (Nat.repr n).data) : m = n := by
  have hd : Nat.toDigits 10 m = Nat.toDigits 10 n := by
    simpa [Nat.repr, List.asString] using h
  have hv := congrArg listVal hd
  rwa [listVal_toDigits, listVal_toDigits] at hv

theorem nat_repr_inj {m n : Nat} (h : Nat.repr m = Nat.repr n) : m = n :=
  nat_repr_data_inj (congrArg String.data h)

/-! ### Shape lemmas for the handler -/

theorem runHandler_post_insert (env : Env) (u : User) (pk : String)
    (k1 k2 k3 k4 : String)
    (hm : env.method ≠ "OPTIONS")
    (h1 : truthy env.midtransServerKey = some k1)
    (h2 : truthy env.supabaseUrl = some k2)
    (h3 : truthy env.supabaseServiceKey = some k3)
    (h4 : truthy env.authHeader = some k4)
    (h5 : env.authUser = some u)
    (h6 : env.bodyPaket = Except.ok (some pk))
    (h7 : pk = "monthly" ∨ pk = "yearly")
    (h8 : env.insertError = false) :
    runHandler env = postInsertStage env u pk := by
  simp only [runHandler, if_neg hm, h1, h2, h3, h4, h5, h6, if_pos h7, h8,
    Bool.false_eq_true, if_false]

theorem postInsertStage_trace (env : Env) (u : User) (paket : String) :
    (postInsertStage env u paket).trace
      = [Event.ledgerInsert (mkTxRecord env u paket) true,
         Event.gatewayCall (mkSnap env u paket)] := by
  cases hgw : env.gateway <;> simp [postInsertStage, hgw, errResp]

theorem postInsertStage_transactions (env : Env) (u : User) (paket : String) :
    (postInsertStage env u paket).transactions
      = env.transactions ++ [mkTxRecord env u paket] := by
  cases hgw : env.gateway <;> simp [postInsertStage, hgw, errResp]

theorem postInsertStage_response (env : Env) (u : User) (paket : String) :
    (postInsertStage env u paket).response =
      (match env.gateway with
       | GatewayResult.success token =>
           ⟨200, RespBody.success token (mkSnap env u paket).order_id⟩
       | GatewayResult.failure st b =>
           ⟨500, RespBody.failure
             ("Midtrans API Error (" ++ toString st ++ "): " ++ b)⟩
       | GatewayResult.netError m => ⟨500, RespBody.failure m⟩) := by
  cases hgw : env.gateway <;> simp [postInsertStage, hgw, errResp, mkSnap, mkTxRecord]

theorem reach_gateway_shape (env : Env) (snap : SnapTransaction)
    (hmem : Event.gatewayCall snap ∈ (runHandler env).trace) :
    ∃ txr : TxRecord,
      (runHandler env).trace
          = [Event.ledgerInsert txr true, Event.gatewayCall snap]
      ∧ (runHandler env).transactions = env.transactions ++ [txr]
      ∧ txr.midtrans_order_id = snap.order_id
      ∧ txr.status = "pending"
      ∧ txr.amount = snap.gross_amount
      ∧ env.insertError = false
      ∧ (runHandler env).response =
          (match env.gateway with
           | GatewayResult.success token =>
               ⟨200, RespBody.success token snap.order_id⟩
           | GatewayResult.failure st b =>
               ⟨500, RespBody.failure
                 ("Midtrans API Error (" ++ toString st ++ "): " ++ b)⟩
           | GatewayResult.netError m => ⟨500, RespBody.failure m⟩) := by
  by_cases hm : env.method = "OPTIONS"
  · simp [runHandler, hm] at hmem
  rcases hmid : truthy env.midtransServerKey with _ | k1
  · simp [runHandler, if_neg hm, hmid, errResp] at hmem
  rcases hurl : truthy env.supabaseUrl with _ | k2
  · simp [runHandler, if_neg hm, hmid, hurl, errResp] at hmem
  rcases hkey : truthy env.supabaseServiceKey with _ | k3
  · simp [runHandler, if_neg hm, hmid, hurl, hkey, errResp] at hmem
  rcases hah : truthy env.authHeader with _ | k4
  · simp [runHandler, if_neg hm, hmid, hurl, hkey, hah, errResp] at hmem
  rcases hau : env.authUser with _ | u
  · simp [runHandler, if_neg hm, hmid, hurl, hkey, hah, hau, errResp] at hmem
  rcases hbody : env.bodyPaket with e | pk
  · simp [runHandler, if_neg hm, hmid, hurl, hkey, hah, hau, hbody, errResp] at hmem
  rcases hpk : pk with _ | paket
  · simp [runHandler, if_neg hm, hmid, hurl, hkey, hah, hau, hbody, hpk,
      errResp] at hmem
  by_cases hval : paket = "monthly" ∨ paket = "yearly"
  · by_cases hins : env.insertError = true
    · simp [runHandler, if_neg hm, hmid, hurl, hkey, hah, hau, hbody, hpk,
        if_pos hval, hins, errResp] at hmem
    · have hins' : env.insertError = false := by
        simpa using hins
      have heq := runHandler_post_insert env u paket k1 k2 k3 k4 hm hmid hurl hkey
        hah hau (by rw [hbody, hpk]) hval hins'
      rw [heq] at hmem ⊢
      rw [postInsertStage_trace] at hmem
      simp only [List.mem_cons, List.not_mem_nil, or_false] at hmem
      rcases hmem with hmem | hmem
      · exact absurd hmem (by simp)
      · have hsnap : snap = mkSnap env u paket := by
          injection hmem
        subst hsnap
        refine ⟨mkTxRecord env u paket, postInsertStage_trace env u paket,
          postInsertStage_transactions env u paket, rfl, rfl, rfl, hins',
          postInsertStage_response env u paket⟩
  · simp [runHandler, if_neg hm, hmid, hurl, hkey, hah, hau, hbody, hpk,
      if_neg hval, errResp] at hmem

/-! ### Concrete sample data used by witnesses and counterexamples -/

def sampleUser : User := ⟨"abcd1234-5678-uuid", "u@x.com"⟩

def sampleEnv : Env :=
  { method := "POST"
    midtransServerKey := some "mk"
    supabaseUrl := some "url"
    supabaseServiceKey := some "svc"
    authHeader := some "Bearer tok"
    authUser := some sampleUser
    bodyPaket := Except.ok (some "monthly")
    packages := []
    packageQueryError := false
    profileNama := none
    insertError := false
    gateway := GatewayResult.success "tok123"
    nowMs := 1234
    transactions := [] }

def sampleSnap : SnapTransaction :=
  ⟨"prem-abcd1234-1234", 40000, "User", "u@x.com", "premium-monthly", 40000, 1,
    "Premium Membership 1 Bulan"⟩

def envGatewayFail : Env :=
  { sampleEnv with gateway := GatewayResult.failure 503 "SERVICE UNAVAILABLE" }

def zeroPricePackage : Package := ⟨0, 1, "", true, false, 0⟩

def annualPromo : Package := ⟨350000, 12, "Annual Promo", true, false, 5⟩

/-! ### Claims -/

/-- C3 counterexample: the code's fallback table is Monthly 40000 and
Yearly 400000, so the yearly fallback is not 12 times the monthly one
(and in particular is not 480000). -/
theorem claim_C3_counterexample :
    (resolvePrice [] false "yearly").amount = 400000
    ∧ (resolvePrice [] false "monthly").amount = 40000
    ∧ (resolvePrice [] false "yearly").amount
        ≠ 12 * (resolvePrice [] false "monthly").amount
    ∧ (resolvePrice [] false "yearly").amount ≠ 480000 := by
  decide

/-- C3 (amended): the fixed fallback price table has Monthly amount 40000
and Yearly amount 400000, i.e. the yearly fallback is 10 times the
monthly fallback. -/
theorem claim_C3_fallback_table :
    fallbackAmount "monthly" = 40000
    ∧ fallbackAmount "yearly" = 400000
    ∧ fallbackAmount "yearly" = 10 * fallbackAmount "monthly" := by
  decide

/-- C4 counterexample: for a store state containing an active matching
package whose stored price is 0 and whose name is empty, the resolved
quote has amount 0 and an empty package name, so the claim's universal
quantification over all store states fails. -/
theorem claim_C4_counterexample :
    ¬ (0 < (resolvePrice [zeroPricePackage] false "monthly").amount
        ∧ (resolvePrice [zeroPricePackage] false "monthly").packageName ≠ "") := by
  decide

/-- C4 (amended): for every plan and every store state whose stored
packages all have positive price and non-empty name (including the empty
store and the query-error case), price resolution is total and returns a
quote with positive amount and non-empty package name. -/
theorem claim_C4_resolution_sane (paket : String) (pkgs : List Package)
    (err : Bool)
    (hsane : ∀ p ∈ pkgs, 0 < p.price ∧ p.name ≠ "") :
    0 < (resolvePrice pkgs err paket).amount
    ∧ (resolvePrice pkgs err paket).packageName ≠ "" := by
  unfold resolvePrice
  rcases hq : queryPackage pkgs err (planDuration paket) with _ | p
  · refine ⟨?_, ?_⟩
    · show 0 < fallbackAmount paket
      unfold fallbackAmount; split <;> norm_num
    · show fallbackName paket ≠ ""
      unfold fallbackName; split <;> decide
  · have hmem : p ∈ pkgs := by
      unfold queryPackage at hq
      split at hq
      · exact absurd hq (by simp)
      · exact List.mem_of_mem_filter (selectBest_mem hq)
    exact hsane p hmem

/-- C4 witness for the amended theorem, at the empty store. -/
theorem claim_C4_witness :
    0 < (resolvePrice [] false "monthly").amount
    ∧ (resolvePrice [] false "monthly").packageName ≠ "" :=
  claim_C4_resolution_sane "monthly" [] false (by simp)

/-- C6: when the query succeeds and at least one active package matches
the plan's canonical duration, the quote takes that package's stored
price and name (not the fallback), and the selected package is maximal
for the order "popular first, then most recently created". -/
theorem claim_C6_canonical_selection (paket : String) (pkgs : List Package)
    (_hpk : paket = "monthly" ∨ paket = "yearly")
    (hne : pkgs.filter (matchesPlan (planDuration paket)) ≠ []) :
    ∃ p ∈ pkgs.filter (matchesPlan (planDuration paket)),
      resolvePrice pkgs false paket = ⟨p.price, p.name⟩
      ∧ ∀ q ∈ pkgs.filter (matchesPlan (planDuration paket)),
          better q p = false := by
  rcases hsel : selectBest (pkgs.filter (matchesPlan (planDuration paket)))
    with _ | p
  · cases hl : pkgs.filter (matchesPlan (planDuration paket)) with
    | nil => exact absurd hl hne
    | cons a l => rw [hl] at hsel; simp [selectBest] at hsel
  · refine ⟨p, selectBest_mem hsel, ?_, selectBest_maximal hsel⟩
    unfold resolvePrice queryPackage
    rw [if_neg (by simp), hsel]

/-- C6 witness: the spec's example — an active yearly package
(price 350000, name "Annual Promo", duration 12) is used, not the
fallback. -/
theorem claim_C6_witness :
    ∃ p ∈ [annualPromo].filter (matchesPlan (planDuration "yearly")),
      resolvePrice [annualPromo] false "yearly" = ⟨p.price, p.name⟩
      ∧ ∀ q ∈ [annualPromo].filter (matchesPlan (planDuration "yearly")),
          better q p = false :=
  claim_C6_canonical_selection "yearly" [annualPromo] (Or.inr rfl) (by decide)

/-- C7: order-id generation is the pure function
`"prem-" ++ (first 8 chars of the principal id) ++ "-" ++ decimal
timestamp`; it is deterministic, and for a fixed principal two distinct
millisecond timestamps always give distinct order ids. -/
theorem claim_C7_orderid_generation (uid uid2 : String) (t1 t2 : Nat) :
    generateOrderId uid t1 = "prem-" ++ uid.take 8 ++ "-" ++ Nat.repr t1
    ∧ (uid = uid2 → t1 = t2 → generateOrderId uid t1 = generateOrderId uid2 t2)
    ∧ (t1 ≠ t2 → generateOrderId uid t1 ≠ generateOrderId uid t2) := by
  refine ⟨rfl, fun h1 h2 => by rw [h1, h2], fun hne heq => hne ?_⟩
  unfold generateOrderId at heq
  have hd := congrArg String.data heq
  simp only [String.data_append] at hd
  exact nat_repr_data_inj (List.append_cancel_left hd)

/-- C7 witness: timestamps differing by 1 ms give different order ids. -/
theorem claim_C7_witness :
    generateOrderId "abcd1234-5678" 1000 ≠ generateOrderId "abcd1234-5678" 1001 :=
  (claim_C7_orderid_generation "abcd1234-5678" "abcd1234-5678" 1000 1001).2.2
    (by decide)

/-- C9: for a monthly request where the package query errors or no
package matches, the quote is exactly amount 40000 with name
"Premium Membership 1 Bulan". -/
theorem claim_C9_monthly_fallback (pkgs : List Package) (err : Bool)
    (h : err = true ∨ pkgs.filter (matchesPlan (planDuration "monthly")) = []) :
    resolvePrice pkgs err "monthly"
      = ⟨40000, "Premium Membership 1 Bulan"⟩ := by
  have hq : queryPackage pkgs err (planDuration "monthly") = none := by
    unfold queryPackage
    rcases h with h | h
    · simp [h]
    · cases err <;> simp [h, selectBest]
  unfold resolvePrice
  rw [hq]
  decide

/-- C9 witness at the empty store. -/
theorem claim_C9_witness :
    resolvePrice [] false "monthly" = ⟨40000, "Premium Membership 1 Bulan"⟩ :=
  claim_C9_monthly_fallback [] false (Or.inr rfl)

/-- C1: write-before-call — whenever a run issues the gateway
session-creation request, the run's trace is exactly a successful ledger
insert of the pending record carrying the generated order id, followed
by the gateway call; the inserted record is in the final ledger, and a
failed insert means no gateway call ever appears in the trace. -/
theorem claim_C1_write_before_call (env : Env) :
    (∀ snap : SnapTransaction,
      Event.gatewayCall snap ∈ (runHandler env).trace →
      ∃ txr : TxRecord,
        (runHandler env).trace
            = [Event.ledgerInsert txr true, Event.gatewayCall snap]
        ∧ txr.midtrans_order_id = snap.order_id
        ∧ txr.status = "pending"
        ∧ txr ∈ (runHandler env).transactions)
    ∧ (env.insertError = true →
        ∀ snap : SnapTransaction,
          Event.gatewayCall snap ∉ (runHandler env).trace) := by
  constructor
  · intro snap hmem
    obtain ⟨txr, h1, h2, h3, h4, _, _, _⟩ := reach_gateway_shape env snap hmem
    refine ⟨txr, h1, h3, h4, ?_⟩
    rw [h2]; simp
  · intro hins snap hmem
    obtain ⟨_, _, _, _, _, _, hfalse, _⟩ := reach_gateway_shape env snap hmem
    rw [hins] at hfalse
    exact absurd hfalse (by simp)

/-- C1 witness: a fully successful run. -/
theorem claim_C1_witness :
    ∃ txr : TxRecord,
      (runHandler sampleEnv).trace
          = [Event.ledgerInsert txr true, Event.gatewayCall sampleSnap]
      ∧ txr.midtrans_order_id = sampleSnap.order_id
      ∧ txr.status = "pending"
      ∧ txr ∈ (runHandler sampleEnv).transactions :=
  (claim_C1_write_before_call sampleEnv).1 sampleSnap (by decide)

/-- C2 (code bug, evaluated at the failing input): when the gateway
rejects with status 503 and body "SERVICE UNAVAILABLE", the client-facing
response body is `{ error: "Midtrans API Error (503): SERVICE
UNAVAILABLE" }` — it embeds the gateway's raw status code and raw
response body instead of the generic message the spec requires. -/
theorem claim_C2_gateway_detail_leaked :
    (runHandler envGatewayFail).response.status = 500
    ∧ (runHandler envGatewayFail).response.body
        = RespBody.failure "Midtrans API Error (503): SERVICE UNAVAILABLE"
    ∧ "Midtrans API Error (503): SERVICE UNAVAILABLE"
        ≠ "Failed to create payment session" := by
  refine ⟨?_, ?_, ?_⟩ <;> decide

/-- C5: if identity verification fails (no truthy Authorization header,
or the token is rejected so `getUser` yields no user), the run ends in a
500 failure response, the trace is empty (so no ledger write and no
gateway call happened), and the transactions table is unchanged. -/
theorem claim_C5_auth_failure_aborts (env : Env)
    (hm : env.method ≠ "OPTIONS")
    (hauth : truthy env.authHeader = none ∨ env.authUser = none) :
    (runHandler env).response.status = 500
    ∧ (∃ msg, (runHandler env).response.body = RespBody.failure msg)
    ∧ (runHandler env).trace = []
    ∧ (∀ (txr : TxRecord) (b : Bool),
        Event.ledgerInsert txr b ∉ (runHandler env).trace)
    ∧ (∀ snap : SnapTransaction,
        Event.gatewayCall snap ∉ (runHandler env).trace)
    ∧ (runHandler env).transactions = env.transactions := by
  rcases hmid : truthy env.midtransServerKey with _ | k1
  · simp [runHandler, if_neg hm, hmid, errResp]
  rcases hurl : truthy env.supabaseUrl with _ | k2
  · simp [runHandler, if_neg hm, hmid, hurl, errResp]
  rcases hkey : truthy env.supabaseServiceKey with _ | k3
  · simp [runHandler, if_neg hm, hmid, hurl, hkey, errResp]
  rcases hah : truthy env.authHeader with _ | k4
  · simp [runHandler, if_neg hm, hmid, hurl, hkey, hah, errResp]
  rcases hau : env.authUser with _ | u
  · simp [runHandler, if_neg hm, hmid, hurl, hkey, hah, hau, errResp]
  rcases hauth with h | h
  · rw [hah] at h; exact absurd h (by simp)
  · rw [hau] at h; exact absurd h (by simp)

/-- C5 witness: a request whose bearer token is rejected. -/
theorem claim_C5_witness :
    (runHandler { sampleEnv with authUser := none }).response.status = 500
    ∧ (∃ msg, (runHandler { sampleEnv with authUser := none }).response.body
        = RespBody.failure msg)
    ∧ (runHandler { sampleEnv with authUser := none }).trace = []
    ∧ (∀ (txr : TxRecord) (b : Bool),
        Event.ledgerInsert txr b
          ∉ (runHandler { sampleEnv with authUser := none }).trace)
    ∧ (∀ snap : SnapTransaction,
        Event.gatewayCall snap
          ∉ (runHandler { sampleEnv with authUser := none }).trace)
    ∧ (runHandler { sampleEnv with authUser := none }).transactions
        = ({ sampleEnv with authUser := none } : Env).transactions :=
  claim_C5_auth_failure_aborts { sampleEnv with authUser := none }
    (by decide) (Or.inr rfl)

/-- C8: when a run reaches the gateway and the gateway answers with a
non-success status, the handler returns a 500 failure, yet the pending
transaction row written before the call is still present in the final
transactions table — it is not rolled back. -/
theorem claim_C8_no_rollback (env : Env) (st : Nat) (b : String)
    (snap : SnapTransaction)
    (hgw : env.gateway = GatewayResult.failure st b)
    (hmem : Event.gatewayCall snap ∈ (runHandler env).trace) :
    (runHandler env).response.status = 500
    ∧ (∃ msg, (runHandler env).response.body = RespBody.failure msg)
    ∧ (∃ txr, txr ∈ (runHandler env).transactions
        ∧ txr.midtrans_order_id = snap.order_id
        ∧ txr.status = "pending") := by
  obtain ⟨txr, _, h2, h3, h4, _, _, hresp⟩ := reach_gateway_shape env snap hmem
  refine ⟨?_, ?_, txr, ?_, h3, h4⟩
  · rw [hresp, hgw]
  · rw [hresp, hgw]
    exact ⟨_, rfl⟩
  · rw [h2]; simp

/-- C8 witness: gateway status 503 after a successful insert. -/
theorem claim_C8_witness :
    (runHandler envGatewayFail).response.status = 500
    ∧ (∃ msg, (runHandler envGatewayFail).response.body = RespBody.failure msg)
    ∧ (∃ txr, txr ∈ (runHandler envGatewayFail).transactions
        ∧ txr.midtrans_order_id = sampleSnap.order_id
        ∧ txr.status = "pending") :=
  claim_C8_no_rollback envGatewayFail 503 "SERVICE UNAVAILABLE" sampleSnap rfl
    (by decide)

/-- C10: a missing profiles row (or an erroring lookup) is not fatal —
under the same conditions that let the pipeline proceed, the run still
performs the ledger insert and the gateway call, and the gateway request
carries the literal "User" as the customer first name. -/
theorem claim_C10_profile_fallback (env : Env) (u : User) (pk : String)
    (k1 k2 k3 k4 : String)
    (hm : env.method ≠ "OPTIONS")
    (h1 : truthy env.midtransServerKey = some k1)
    (h2 : truthy env.supabaseUrl = some k2)
    (h3 : truthy env.supabaseServiceKey = some k3)
    (h4 : truthy env.authHeader = some k4)
    (h5 : env.authUser = some u)
    (h6 : env.bodyPaket = Except.ok (some pk))
    (h7 : pk = "monthly" ∨ pk = "yearly")
    (h8 : env.insertError = false)
    (h9 : env.profileNama = none) :
    ∃ txr snap,
      (runHandler env).trace
          = [Event.ledgerInsert txr true, Event.gatewayCall snap]
      ∧ snap.first_name = "User" := by
  rw [runHandler_post_insert env u pk k1 k2 k3 k4 hm h1 h2 h3 h4 h5 h6 h7 h8,
    postInsertStage_trace]
  exact ⟨_, _, rfl, by simp [mkSnap, h9, customerFirstName]⟩

/-- C10 witness: the sample run has no profile row and still reaches the
gateway with first name "User". -/
theorem claim_C10_witness :
    ∃ txr snap,
      (runHandler sampleEnv).trace
          = [Event.ledgerInsert txr true, Event.gatewayCall snap]
      ∧ snap.first_name = "User" :=
  claim_C10_profile_fallback sampleEnv sampleUser "monthly"
    "mk" "url" "svc" "Bearer tok"
    (by decide) (by decide) (by decide) (by decide) (by decide) rfl rfl
    (Or.inl rfl) rfl rfl

end CreatePayment
